import Mathlib

/-!
Shallow embedding of librosie.c, the FFI boundary layer of the Rosie pattern
language.  Each exported C function is translated into a Lean function over an
explicit `EngineState` (the contents of the per-engine Lua registry slots),
together with oracle parameters standing for the outcomes of calls into the
embedded Lua runtime (`PcallResult`).  Every operation also returns the list of
boundary events it performs (lock acquisition and release, garbage collection,
calls into the runtime module, buffer allocation and release), which the
theorems below quantify over.
-/

namespace Rosie

/-- Modelled from the spec: librosie.h is not under src/.  Return and sentinel
codes of the error taxonomy.  The development relies only on the success code
being 0 and the error and sentinel codes being distinct from it. -/
def SUCCESS : Int := 0

def LUA_OK : Int := 0

def ERR_SYSCALL_FAILED : Int := -3

def ERR_ENGINE_CALL_FAILED : Int := -4

def ERR_NO_ENCODER : Int := -6

def ERR_NO_PATTERN : Int := -7

/-- Modelled from the spec: librosie.h is not under src/.  The minimum nonzero
allocation limit, in megabytes, below which set requests are rejected. -/
def MIN_ALLOC_LIMIT_MB : Int := 10

/-- A Lua value as visible across the C API boundary.  Tables carry only their
emptiness (what lua_next observes in to_json_string); an rBuffer userdata
carries an identity and the byte length of its payload. -/
inductive LuaValue where
  | nil
  | boolean (b : Bool)
  | integer (n : Int)
  | str (s : String)
  | table (isEmpty : Bool)
  | rbuf (id : Nat) (n : Nat)
  deriving DecidableEq

/-- lua_toboolean: nil and false are false, everything else is true. -/
def lua_toboolean : LuaValue → Bool
  | LuaValue.nil => false
  | LuaValue.boolean b => b
  | _ => true

/-- lua_tointeger: non-numbers convert to 0 (numeric strings, which Lua would
also coerce, are not exercised by any oracle in this development). -/
def lua_tointeger : LuaValue → Int
  | LuaValue.integer n => n
  | _ => 0

def lua_isboolean : LuaValue → Bool
  | LuaValue.boolean _ => true
  | _ => false

/-- lua_isstring is true for actual strings and for numbers, which coerce. -/
def lua_isstring : LuaValue → Bool
  | LuaValue.str _ => true
  | LuaValue.integer _ => true
  | _ => false

/-- lua_tolstring: strings convert to themselves, numbers to their digits, any
other value yields a null pointer, modelled as none with length 0. -/
def lua_tolstring : LuaValue → Option String
  | LuaValue.str s => some s
  | LuaValue.integer n => some (toString n)
  | _ => none

def lua_touserdata : LuaValue → Option (Nat × Nat)
  | LuaValue.rbuf id n => some (id, n)
  | _ => none

/-- lua_pcall with a fixed nonnegative nresults adjusts the callee results to
exactly n values, truncating extras and padding missing ones with nil. -/
def lua_adjust (n : Nat) (vs : List LuaValue) : List LuaValue :=
  (vs ++ List.replicate n LuaValue.nil).take n

/-- Outcome of a lua_pcall into the runtime module: either the call raised
(status other than LUA_OK) or it returned a list of values. -/
inductive PcallResult where
  | err
  | ok (rets : List LuaValue)
  deriving DecidableEq

/-- The runtime-module entry points reached through lua_pcall or a direct
C call from the boundary layer. -/
inductive Entry where
  | engineCompile
  | rplxMatch
  | rMatchC
  | engineTrace
  | engineLoad
  | engineLoadfile
  | engineImport
  | engineMatchfile
  | rosieConfig
  | libpathFn
  | cjsonEncode
  | violationStrip
  | cliLoadfile
  | cliCall
  deriving DecidableEq

/-- Observable boundary events of one public operation. -/
inductive Event where
  | acquireLock
  | releaseLock
  | gcCollect
  | invoke (e : Entry)
  | allocBuf (id : Nat)
  | freeBuf (id : Nat)
  | luaClose
  | freeEngineStruct
  deriving DecidableEq

/-- Projection of an event list onto its lock actions: true is an acquire,
false is a release. -/
def locksOf : List Event → List Bool
  | [] => []
  | Event.acquireLock :: r => true :: locksOf r
  | Event.releaseLock :: r => false :: locksOf r
  | _ :: r => locksOf r

/-- Number of full-collection events in a trace. -/
def gcCount : List Event → Nat
  | [] => 0
  | Event.gcCollect :: r => gcCount r + 1
  | _ :: r => gcCount r

/-- Projection of an event list onto the runtime entry points invoked. -/
def invokesOf : List Event → List Entry
  | [] => []
  | Event.invoke e :: r => e :: invokesOf r
  | _ :: r => invokesOf r

def countEntry (e : Entry) : List Entry → Nat
  | [] => 0
  | x :: r => (if x = e then 1 else 0) + countEntry e r

/-- True when, scanning left to right, a violation-strip call occurs before any
json-encode call, or no json-encode call occurs at all. -/
def stripPrecedesEncode : List Entry → Bool
  | [] => true
  | Entry.cjsonEncode :: _ => false
  | Entry.violationStrip :: _ => true
  | _ :: r => stripPrecedesEncode r

/-- ACQUIRE_ENGINE_LOCK at entry, RELEASE_ENGINE_LOCK at exit, around the
events of the operation body. -/
def wrapLock (mid : List Event) : List Event :=
  Event.acquireLock :: (mid ++ [Event.releaseLock])

/-- The trace acquires the lock as its first event and its lock actions are
exactly one acquire followed by one release. -/
def lockBalanced (evs : List Event) : Prop :=
  evs.head? = some Event.acquireLock ∧ locksOf evs = [true, false]

/-- The per-engine registry slots of librosie.c: the compiled-pattern (rplx)
table with its next free reference, the two allocation-limit slots, the
previous scripted string result slot (a buffer id), plus bookkeeping for
buffer identities, the set of freed buffers, and current heap usage in KB as
reported by lua_gc(LUA_GCCOUNT). -/
structure EngineState where
  rplxTable : List Int
  nextHandle : Int
  allocSetLimit : Int
  allocActualLimit : Int
  prevStash : Option Nat
  nextBufId : Nat
  freedBufs : List Nat
  memusgKB : Int
  deriving DecidableEq

/-- Freshness invariant for the buffer id counter: every buffer id the state
has handed out (freed or stashed) is below the counter. -/
def StateWF (s : EngineState) : Prop :=
  (∀ b ∈ s.freedBufs, b < s.nextBufId) ∧
    (match s.prevStash with
     | some b => b < s.nextBufId
     | none => True)

/-- A str out-value crossing the boundary: a possibly-null pointer, modelled
as a buffer identity, and a length. -/
structure StrOut where
  ptr : Option Nat
  len : Int
  deriving DecidableEq

structure AllocRes where
  out : StrOut
  state : EngineState
  events : List Event
  deriving DecidableEq

/-- Modelled from the spec: rosiestring.c is not under src/.  Per the Result
Buffer Protocol, constructing a message string makes a fresh heap allocation
owned by the caller; the allocation is modelled by a fresh buffer id. -/
def rosie_new_string (s : EngineState) (msg : String) : AllocRes :=
  { out := { ptr := some s.nextBufId, len := Int.ofNat msg.length }
    state := { s with nextBufId := s.nextBufId + 1 }
    events := [Event.allocBuf s.nextBufId] }

/-- Modelled from the spec: the native encoder table r_encoders lives in the
rpeg collaborator module, not under src/.  The spec requires only that the
built-in encodings resolve to small non-zero codes and that unknown or
extension names resolve to 0. -/
def r_encoders : List (String × Int) := [("byte", 1), ("json", 2), ("line", 3)]

def encoder_name_to_code (name : String) : Int :=
  match r_encoders.find? (fun p => p.1 == name) with
  | some p => p.2
  | none => 0

structure JsonOut where
  retcode : Int
  json : StrOut
  state : EngineState
  events : List Event
  deriving DecidableEq

/-- to_json_string (librosie.c): marshal a diagnostics value to one serialized
buffer.  A non-table argument is ERR_SYSCALL_FAILED.  An empty table returns a
null rosie_string without calling the encoder.  Otherwise the json encoder slot
is pcalled; a raise or more than one returned value is ERR_SYSCALL_FAILED, and
the single result (none at all reads the stale stack slot holding the table) is
converted with lua_tolstring and copied with rosie_new_string. -/
def to_json_string (s : EngineState) (v : LuaValue) (enc : PcallResult) : JsonOut :=
  match v with
  | LuaValue.table isEmpty =>
    if isEmpty then
      { retcode := LUA_OK, json := { ptr := none, len := 0 }, state := s, events := [] }
    else
      match enc with
      | PcallResult.err =>
        { retcode := ERR_SYSCALL_FAILED, json := { ptr := none, len := 0 }, state := s,
          events := [Event.invoke Entry.cjsonEncode] }
      | PcallResult.ok rets =>
        if 1 < rets.length then
          { retcode := ERR_SYSCALL_FAILED, json := { ptr := none, len := 0 }, state := s,
            events := [Event.invoke Entry.cjsonEncode] }
        else
          let conv :=
            match rets with
            | [r] => lua_tolstring r
            | _ => none
          let a := rosie_new_string s (conv.getD "")
          { retcode := LUA_OK, json := a.out, state := a.state,
            events := Event.invoke Entry.cjsonEncode :: a.events }
  | _ =>
    { retcode := ERR_SYSCALL_FAILED, json := { ptr := none, len := 0 }, state := s, events := [] }

/-- collect_if_needed (librosie.c): if the actual-limit slot holds a nonzero
value (nil reads as zero) and current usage exceeds it, force a full collection
inline.  The post-collection usage comes from the oracle. -/
def collect_if_needed (s : EngineState) (postGcUsage : Int) : EngineState :=
  if s.allocActualLimit ≠ 0 ∧ s.memusgKB > s.allocActualLimit then
    { s with memusgKB := postGcUsage }
  else s

/-- The events emitted by collect_if_needed. -/
def collectEvents (s : EngineState) : List Event :=
  if s.allocActualLimit ≠ 0 ∧ s.memusgKB > s.allocActualLimit then [Event.gcCollect] else []

/-- Result of rosie_new: the engine returned to the caller (none is NULL), the
diagnostic message, and the allocation bookkeeping of the Engine struct and of
the Lua state, recording what was allocated, freed or left behind. -/
structure NewOut where
  engineOut : Option EngineState
  messages : Option String
  engineAllocated : Bool
  engineFreed : Bool
  luaOpened : Bool
  luaClosed : Bool
  deriving DecidableEq

/-- rosie_new (librosie.c): run the process-wide one-time setup, malloc the
Engine struct, open a Lua state, boot, populate the registry slots.  The oracle
booleans drive the failure points in source order: initialization
(pthread_once plus all_is_lost), luaL_newstate, boot, lua_checkstack, and
rosie.engine.new(). -/
def rosie_new (initOk : Bool) (newstateOk : Bool) (bootOk : Bool) (bootMsg : String)
    (checkstackOk : Bool) (engineNewOk : Bool) (initialUsage : Int) : NewOut :=
  if !initOk then
    { engineOut := none, messages := some "initialization failed; enable DEBUG output for details",
      engineAllocated := false, engineFreed := false, luaOpened := false, luaClosed := false }
  else if !newstateOk then
    { engineOut := none, messages := some "not enough memory to initialize",
      engineAllocated := true, engineFreed := false, luaOpened := false, luaClosed := false }
  else if !bootOk then
    { engineOut := none, messages := some bootMsg,
      engineAllocated := true, engineFreed := false, luaOpened := true, luaClosed := false }
  else if !checkstackOk then
    { engineOut := none, messages := some "not enough memory for stack",
      engineAllocated := true, engineFreed := false, luaOpened := true, luaClosed := false }
  else if !engineNewOk then
    { engineOut := none, messages := some "rosie.engine.new() failed",
      engineAllocated := true, engineFreed := false, luaOpened := true, luaClosed := false }
  else
    { engineOut := some
        { rplxTable := [], nextHandle := 1, allocSetLimit := 0, allocActualLimit := 0,
          prevStash := none, nextBufId := 0, freedBufs := [], memusgKB := initialUsage }
      messages := none
      engineAllocated := true, engineFreed := false, luaOpened := true, luaClosed := false }

structure AllocOut where
  retcode : Int
  newlimitOut : Option Int
  usageOut : Option Int
  state : EngineState
  events : List Event
  deriving DecidableEq

/-- rosie_alloc_limit (librosie.c): under the lock, run two full collections,
read usage, and then either query (newlimit holds -1), reject a nonzero limit
below the minimum, or store the set limit and the actual ceiling
(usage + limit, or 0 for unlimited).  newlimit models the in-out int pointer
(none is NULL); usagePtr models nullness of the usage pointer. -/
def rosie_alloc_limit (s0 : EngineState) (newlimit : Option Int) (usagePtr : Bool)
    (postGcUsage : Int) : AllocOut :=
  let s := { s0 with memusgKB := postGcUsage }
  let usageOut := if usagePtr then some postGcUsage else none
  match newlimit with
  | none =>
    { retcode := SUCCESS, newlimitOut := none, usageOut := usageOut, state := s,
      events := wrapLock [Event.gcCollect, Event.gcCollect] }
  | some limit =>
    if limit ≠ -1 ∧ limit ≠ 0 ∧ limit < MIN_ALLOC_LIMIT_MB then
      { retcode := ERR_ENGINE_CALL_FAILED, newlimitOut := some limit, usageOut := usageOut,
        state := s, events := wrapLock [Event.gcCollect, Event.gcCollect] }
    else if limit = -1 then
      { retcode := SUCCESS, newlimitOut := some s0.allocSetLimit, usageOut := usageOut,
        state := s, events := wrapLock [Event.gcCollect, Event.gcCollect] }
    else
      let s2 := { s with allocSetLimit := limit,
                         allocActualLimit := if limit = 0 then 0 else postGcUsage + limit }
      { retcode := SUCCESS, newlimitOut := some limit, usageOut := usageOut,
        state := s2, events := wrapLock [Event.gcCollect, Event.gcCollect] }

structure ConfigOut where
  retcode : Int
  retval : Option StrOut
  state : EngineState
  events : List Event
  deriving DecidableEq

/-- rosie_config (librosie.c): pcall rosie.config(), then marshal the result
through to_json_string; both failure paths allocate a constant diagnostic
string for the caller. -/
def rosie_config (s : EngineState) (rt : PcallResult) (enc : PcallResult) : ConfigOut :=
  match rt with
  | PcallResult.err =>
    let a := rosie_new_string s "rosie.config() failed"
    { retcode := ERR_ENGINE_CALL_FAILED, retval := some a.out, state := a.state,
      events := wrapLock (Event.invoke Entry.rosieConfig :: a.events) }
  | PcallResult.ok rets =>
    let r := (lua_adjust 1 rets).getD 0 LuaValue.nil
    let j := to_json_string s r enc
    if j.retcode ≠ LUA_OK then
      let a := rosie_new_string j.state
        "in config(), could not convert config information to json"
      { retcode := ERR_ENGINE_CALL_FAILED, retval := some a.out, state := a.state,
        events := wrapLock (Event.invoke Entry.rosieConfig :: (j.events ++ a.events)) }
    else
      { retcode := SUCCESS, retval := some j.json, state := j.state,
        events := wrapLock (Event.invoke Entry.rosieConfig :: j.events) }

structure LibpathOut where
  retcode : Int
  pathOut : Option StrOut
  state : EngineState
  events : List Event
  deriving DecidableEq

/-- rosie_libpath (librosie.c): with a non-null new path, pcall
engine.set_libpath; with a null pointer, pcall engine.get_libpath and copy the
returned string out. -/
def rosie_libpath (s : EngineState) (newpath : Option String) (rt : PcallResult) : LibpathOut :=
  match rt with
  | PcallResult.err =>
    { retcode := ERR_ENGINE_CALL_FAILED, pathOut := none, state := s,
      events := wrapLock [Event.invoke Entry.libpathFn] }
  | PcallResult.ok rets =>
    match newpath with
    | some _ =>
      { retcode := SUCCESS, pathOut := none, state := s,
        events := wrapLock [Event.invoke Entry.libpathFn] }
    | none =>
      let r := (lua_adjust 1 rets).getD 0 LuaValue.nil
      let a := rosie_new_string s ((lua_tolstring r).getD "")
      { retcode := SUCCESS, pathOut := some a.out, state := a.state,
        events := wrapLock (Event.invoke Entry.libpathFn :: a.events) }

/-- rosie_free_rplx (librosie.c): under the lock, luaL_unref the handle in the
rplx table; always SUCCESS, idempotent on dead handles. -/
def rosie_free_rplx (s : EngineState) (pat : Int) : Int × EngineState × List Event :=
  (SUCCESS, { s with rplxTable := s.rplxTable.filter (fun h => h ≠ pat) }, wrapLock [])

structure CompileOut where
  retcode : Int
  patOut : Option Int
  messages : Option StrOut
  state : EngineState
  events : List Event
  deriving DecidableEq

/-- rosie_compile (librosie.c): null out-pointer checks, then pcall
engine.compile expecting two results.  A boolean first result is a compile
failure (pat stays 0, messages marshaled); otherwise the rplx object is
luaL_ref-ed into the rplx table and warnings are marshaled.  patPtr and
exprPtr model nullness of the pat and expression arguments. -/
def rosie_compile (s : EngineState) (patPtr : Bool) (exprPtr : Bool)
    (rt : PcallResult) (enc : PcallResult) : CompileOut :=
  if !patPtr then
    { retcode := ERR_ENGINE_CALL_FAILED, patOut := none, messages := none, state := s,
      events := wrapLock [] }
  else if !exprPtr then
    { retcode := ERR_ENGINE_CALL_FAILED, patOut := some 0, messages := none, state := s,
      events := wrapLock [] }
  else
    match rt with
    | PcallResult.err =>
      { retcode := ERR_ENGINE_CALL_FAILED, patOut := some 0, messages := none, state := s,
        events := wrapLock [Event.invoke Entry.engineCompile] }
    | PcallResult.ok rets =>
      let a := lua_adjust 2 rets
      let r1 := a.getD 0 LuaValue.nil
      let r2 := a.getD 1 LuaValue.nil
      if lua_isboolean r1 then
        let j := to_json_string s r2 enc
        if j.retcode ≠ LUA_OK then
          let m := rosie_new_string j.state "could not convert compile messages to json"
          { retcode := ERR_ENGINE_CALL_FAILED, patOut := some 0, messages := some m.out,
            state := m.state,
            events := wrapLock (Event.invoke Entry.engineCompile :: (j.events ++ m.events)) }
        else
          { retcode := SUCCESS, patOut := some 0, messages := some j.json, state := j.state,
            events := wrapLock (Event.invoke Entry.engineCompile :: j.events) }
      else
        let h := s.nextHandle
        let s1 := { s with rplxTable := h :: s.rplxTable, nextHandle := s.nextHandle + 1 }
        let j := to_json_string s1 r2 enc
        if j.retcode ≠ LUA_OK then
          { retcode := ERR_ENGINE_CALL_FAILED, patOut := some h, messages := none,
            state := j.state,
            events := wrapLock (Event.invoke Entry.engineCompile :: j.events) }
        else
          { retcode := SUCCESS, patOut := some h, messages := some j.json, state := j.state,
            events := wrapLock (Event.invoke Entry.engineCompile :: j.events) }

/-- The data byte-range of a match result: a borrowed range into a
runtime-owned rBuffer, or a range into the engine-owned stashed copy of a
string result. -/
inductive DataPtr where
  | rbufPtr (id : Nat)
  | ownedPtr (id : Nat)
  deriving DecidableEq

/-- The fields of the match out-struct actually written by the call; a none
field was left untouched in caller memory.  dataPtr uses an inner Option for a
written NULL pointer. -/
structure MatchRes where
  dataPtr : Option (Option DataPtr)
  dataLen : Option Int
  leftover : Option Int
  abend : Option Bool
  ttotal : Option Int
  tmatch : Option Int
  deriving DecidableEq

def emptyMatchRes : MatchRes :=
  { dataPtr := none, dataLen := none, leftover := none, abend := none,
    ttotal := none, tmatch := none }

structure MatchOut where
  retcode : Int
  res : MatchRes
  state : EngineState
  events : List Event
  deriving DecidableEq

/-- rosie_match (librosie.c): collect if needed; a zero or dead handle reports
the ERR_NO_PATTERN sentinel through the match data with SUCCESS; otherwise
dispatch on the encoder code (0 pcalls rplx.match through Lua, nonzero calls
the native r_match_C) with 4 arguments and 5 expected results.  The four
trailing scalars are read off the adjusted results; the leading value is an
rBuffer (borrowed range), boolean (no match), or a string, which is only legal
on the scripted path and is copied into the previous-scripted-result stash
after freeing the prior stash; any other leading value is an Error. -/
def rosie_match (s0 : EngineState) (pat : Int) (encoder_name : String)
    (rt : PcallResult) (postGcUsage : Int) : MatchOut :=
  let s := collect_if_needed s0 postGcUsage
  let gcEvs := collectEvents s0
  if pat = 0 ∨ pat ∉ s.rplxTable then
    { retcode := SUCCESS,
      res := { emptyMatchRes with dataPtr := some none, dataLen := some ERR_NO_PATTERN },
      state := s, events := wrapLock gcEvs }
  else
    let encoder := encoder_name_to_code encoder_name
    let entry := if encoder = 0 then Entry.rplxMatch else Entry.rMatchC
    match rt with
    | PcallResult.err =>
      { retcode := ERR_ENGINE_CALL_FAILED, res := emptyMatchRes, state := s,
        events := wrapLock (gcEvs ++ [Event.invoke entry]) }
    | PcallResult.ok rets =>
      let a := lua_adjust 5 rets
      let r1 := a.getD 0 LuaValue.nil
      let r2 := a.getD 1 LuaValue.nil
      let r3 := a.getD 2 LuaValue.nil
      let r4 := a.getD 3 LuaValue.nil
      let r5 := a.getD 4 LuaValue.nil
      let scal : MatchRes :=
        { dataPtr := none, dataLen := none, leftover := some (lua_tointeger r2),
          abend := some (lua_toboolean r3), ttotal := some (lua_tointeger r4),
          tmatch := some (lua_tointeger r5) }
      match lua_touserdata r1 with
      | some (id, blen) =>
        { retcode := SUCCESS,
          res := { scal with dataPtr := some (some (DataPtr.rbufPtr id)),
                             dataLen := some (Int.ofNat blen) },
          state := s, events := wrapLock (gcEvs ++ [Event.invoke entry]) }
      | none =>
        if lua_isboolean r1 then
          { retcode := SUCCESS,
            res := { scal with dataPtr := some none, dataLen := some 0 },
            state := s, events := wrapLock (gcEvs ++ [Event.invoke entry]) }
        else if lua_isstring r1 then
          if encoder ≠ 0 then
            { retcode := ERR_ENGINE_CALL_FAILED, res := scal, state := s,
              events := wrapLock (gcEvs ++ [Event.invoke entry]) }
          else
            let freeEvs :=
              match s.prevStash with
              | some b => [Event.freeBuf b]
              | none => []
            let s1 :=
              match s.prevStash with
              | some b => { s with freedBufs := b :: s.freedBufs, prevStash := none }
              | none => s
            let newId := s1.nextBufId
            let txt := (lua_tolstring r1).getD ""
            let s2 := { s1 with nextBufId := newId + 1, prevStash := some newId }
            { retcode := SUCCESS,
              res := { scal with dataPtr := some (some (DataPtr.ownedPtr newId)),
                                 dataLen := some (Int.ofNat txt.length) },
              state := s2,
              events := wrapLock (gcEvs ++ [Event.invoke entry] ++ freeEvs
                                  ++ [Event.allocBuf newId]) }
        else
          { retcode := ERR_ENGINE_CALL_FAILED, res := scal, state := s,
            events := wrapLock (gcEvs ++ [Event.invoke entry]) }

structure TraceOut where
  retcode : Int
  matched : Option Bool
  trc : Option StrOut
  state : EngineState
  events : List Event
  deriving DecidableEq

/-- rosie_trace (librosie.c): collect if needed; a zero or dead handle reports
the ERR_NO_PATTERN sentinel through the trace string with SUCCESS; a null
trace_style reports the ERR_NO_ENCODER sentinel with SUCCESS; otherwise pcall
engine.trace with 5 arguments and 3 expected results, read the matched flag,
and return the trace data: a table is marshaled to json (a marshaling failure
still returns SUCCESS with a constant message), a string is copied, anything
else is an Error. -/
def rosie_trace (s0 : EngineState) (pat : Int) (trace_style : Option String)
    (rt : PcallResult) (enc : PcallResult) (postGcUsage : Int) : TraceOut :=
  let s := collect_if_needed s0 postGcUsage
  let gcEvs := collectEvents s0
  if pat = 0 ∨ pat ∉ s.rplxTable then
    { retcode := SUCCESS, matched := none, trc := some { ptr := none, len := ERR_NO_PATTERN },
      state := s, events := wrapLock gcEvs }
  else if trace_style = none then
    { retcode := SUCCESS, matched := none, trc := some { ptr := none, len := ERR_NO_ENCODER },
      state := s, events := wrapLock gcEvs }
  else
    match rt with
    | PcallResult.err =>
      { retcode := ERR_ENGINE_CALL_FAILED, matched := none, trc := none, state := s,
        events := wrapLock (gcEvs ++ [Event.invoke Entry.engineTrace]) }
    | PcallResult.ok rets =>
      let a := lua_adjust 3 rets
      let r2 := a.getD 1 LuaValue.nil
      let r3 := a.getD 2 LuaValue.nil
      let matched := some (lua_toboolean r2)
      match r3 with
      | LuaValue.table isEmpty =>
        let j := to_json_string s (LuaValue.table isEmpty) enc
        if j.retcode ≠ LUA_OK then
          let m := rosie_new_string j.state "error: could not convert trace data to json"
          { retcode := SUCCESS, matched := matched, trc := some m.out, state := m.state,
            events := wrapLock (gcEvs ++ [Event.invoke Entry.engineTrace]
                                ++ j.events ++ m.events) }
        else
          { retcode := SUCCESS, matched := matched, trc := some j.json, state := j.state,
            events := wrapLock (gcEvs ++ [Event.invoke Entry.engineTrace] ++ j.events) }
      | _ =>
        if lua_isstring r3 then
          let m := rosie_new_string s ((lua_tolstring r3).getD "")
          { retcode := SUCCESS, matched := matched, trc := some m.out, state := m.state,
            events := wrapLock (gcEvs ++ [Event.invoke Entry.engineTrace] ++ m.events) }
        else
          { retcode := ERR_ENGINE_CALL_FAILED, matched := matched, trc := none, state := s,
            events := wrapLock (gcEvs ++ [Event.invoke Entry.engineTrace]) }

structure LoadOut where
  retcode : Int
  okOut : Option Bool
  pkgname : Option StrOut
  messages : Option StrOut
  state : EngineState
  events : List Event
  deriving DecidableEq

/-- rosie_load (librosie.c): pcall engine.load with 2 arguments and 3 expected
results; read the ok flag and the package name, then marshal the messages
table directly with to_json_string - no violation-strip pre-pass.  A marshaling
failure substitutes a constant message and still returns SUCCESS. -/
def rosie_load (s : EngineState) (rt : PcallResult) (enc : PcallResult) : LoadOut :=
  match rt with
  | PcallResult.err =>
    let m := rosie_new_string s "engine.load() failed"
    { retcode := ERR_ENGINE_CALL_FAILED, okOut := none, pkgname := none,
      messages := some m.out, state := m.state,
      events := wrapLock (Event.invoke Entry.engineLoad :: m.events) }
  | PcallResult.ok rets =>
    let a := lua_adjust 3 rets
    let r1 := a.getD 0 LuaValue.nil
    let r2 := a.getD 1 LuaValue.nil
    let r3 := a.getD 2 LuaValue.nil
    let okFlag := some (lua_toboolean r1)
    let pk :=
      if lua_isstring r2 then rosie_new_string s ((lua_tolstring r2).getD "")
      else { out := { ptr := none, len := 0 }, state := s, events := [] }
    let j := to_json_string pk.state r3 enc
    if j.retcode ≠ LUA_OK then
      let m := rosie_new_string j.state
        "in load(), could not convert error information to json"
      { retcode := SUCCESS, okOut := okFlag, pkgname := some pk.out, messages := some m.out,
        state := m.state,
        events := wrapLock (Event.invoke Entry.engineLoad :: (pk.events ++ j.events
                            ++ m.events)) }
    else
      { retcode := SUCCESS, okOut := okFlag, pkgname := some pk.out, messages := some j.json,
        state := j.state,
        events := wrapLock (Event.invoke Entry.engineLoad :: (pk.events ++ j.events)) }

/-- rosie_loadfile (librosie.c): pcall engine.loadfile with 2 arguments and 3
expected results; read the ok flag and package name, run the messages through
violation.strip_each (an Error if that pcall raises), then marshal them (an
Error if marshaling fails). -/
def rosie_loadfile (s : EngineState) (rt : PcallResult) (stripOk : Bool)
    (enc : PcallResult) : LoadOut :=
  match rt with
  | PcallResult.err =>
    { retcode := ERR_ENGINE_CALL_FAILED, okOut := none, pkgname := none, messages := none,
      state := s, events := wrapLock [Event.invoke Entry.engineLoadfile] }
  | PcallResult.ok rets =>
    let a := lua_adjust 3 rets
    let r1 := a.getD 0 LuaValue.nil
    let r2 := a.getD 1 LuaValue.nil
    let r3 := a.getD 2 LuaValue.nil
    let okFlag := some (lua_toboolean r1)
    let pk :=
      if lua_isstring r2 then rosie_new_string s ((lua_tolstring r2).getD "")
      else { out := { ptr := none, len := 0 }, state := s, events := [] }
    if !stripOk then
      { retcode := ERR_ENGINE_CALL_FAILED, okOut := okFlag, pkgname := some pk.out,
        messages := none, state := pk.state,
        events := wrapLock (Event.invoke Entry.engineLoadfile :: (pk.events
                            ++ [Event.invoke Entry.violationStrip])) }
    else
      let j := to_json_string pk.state r3 enc
      if j.retcode ≠ LUA_OK then
        { retcode := ERR_ENGINE_CALL_FAILED, okOut := okFlag, pkgname := some pk.out,
          messages := none, state := j.state,
          events := wrapLock (Event.invoke Entry.engineLoadfile :: (pk.events
                              ++ [Event.invoke Entry.violationStrip] ++ j.events)) }
      else
        { retcode := SUCCESS, okOut := okFlag, pkgname := some pk.out,
          messages := some j.json, state := j.state,
          events := wrapLock (Event.invoke Entry.engineLoadfile :: (pk.events
                              ++ [Event.invoke Entry.violationStrip] ++ j.events)) }

/-- rosie_import (librosie.c): pcall engine.import with 3 arguments (the alias
may be nil) and 3 expected results; read the ok flag and the actual package
name, run the messages through violation.strip_each, then marshal them.  Same
error shape as loadfile. -/
def rosie_import (s : EngineState) (_as : Option String) (rt : PcallResult) (stripOk : Bool)
    (enc : PcallResult) : LoadOut :=
  match rt with
  | PcallResult.err =>
    { retcode := ERR_ENGINE_CALL_FAILED, okOut := none, pkgname := none, messages := none,
      state := s, events := wrapLock [Event.invoke Entry.engineImport] }
  | PcallResult.ok rets =>
    let a := lua_adjust 3 rets
    let r1 := a.getD 0 LuaValue.nil
    let r2 := a.getD 1 LuaValue.nil
    let r3 := a.getD 2 LuaValue.nil
    let okFlag := some (lua_toboolean r1)
    let pk :=
      if lua_isstring r2 then rosie_new_string s ((lua_tolstring r2).getD "")
      else { out := { ptr := none, len := 0 }, state := s, events := [] }
    if !stripOk then
      { retcode := ERR_ENGINE_CALL_FAILED, okOut := okFlag, pkgname := some pk.out,
        messages := none, state := pk.state,
        events := wrapLock (Event.invoke Entry.engineImport :: (pk.events
                            ++ [Event.invoke Entry.violationStrip])) }
    else
      let j := to_json_string pk.state r3 enc
      if j.retcode ≠ LUA_OK then
        { retcode := ERR_ENGINE_CALL_FAILED, okOut := okFlag, pkgname := some pk.out,
          messages := none, state := j.state,
          events := wrapLock (Event.invoke Entry.engineImport :: (pk.events
                              ++ [Event.invoke Entry.violationStrip] ++ j.events)) }
      else
        { retcode := SUCCESS, okOut := okFlag, pkgname := some pk.out,
          messages := some j.json, state := j.state,
          events := wrapLock (Event.invoke Entry.engineImport :: (pk.events
                              ++ [Event.invoke Entry.violationStrip] ++ j.events)) }

structure MatchfileOut where
  retcode : Int
  cin : Option Int
  cout : Option Int
  cerr : Option Int
  errOut : StrOut
  state : EngineState
  events : List Event
  deriving DecidableEq

/-- rosie_matchfile (librosie.c): the err out-struct is nulled before the lock;
collect if needed; a dead handle reports ERR_NO_PATTERN through cout (cin -1)
with SUCCESS, a null encoder name reports ERR_NO_ENCODER the same way;
otherwise pcall engine.matchfile with 7 arguments and 3 expected results.  A
nil third result is an i/o problem: cin -1, cout 3, the second result copied
into err, SUCCESS; otherwise the three counts are read out. -/
def rosie_matchfile (s0 : EngineState) (pat : Int) (encoder : Option String)
    (rt : PcallResult) (postGcUsage : Int) : MatchfileOut :=
  let s := collect_if_needed s0 postGcUsage
  let gcEvs := collectEvents s0
  if pat ∉ s.rplxTable then
    { retcode := SUCCESS, cin := some (-1), cout := some ERR_NO_PATTERN, cerr := none,
      errOut := { ptr := none, len := 0 }, state := s, events := wrapLock gcEvs }
  else if encoder = none then
    { retcode := SUCCESS, cin := some (-1), cout := some ERR_NO_ENCODER, cerr := none,
      errOut := { ptr := none, len := 0 }, state := s, events := wrapLock gcEvs }
  else
    match rt with
    | PcallResult.err =>
      { retcode := ERR_ENGINE_CALL_FAILED, cin := none, cout := none, cerr := none,
        errOut := { ptr := none, len := 0 }, state := s,
        events := wrapLock (gcEvs ++ [Event.invoke Entry.engineMatchfile]) }
    | PcallResult.ok rets =>
      let a := lua_adjust 3 rets
      let r1 := a.getD 0 LuaValue.nil
      let r2 := a.getD 1 LuaValue.nil
      let r3 := a.getD 2 LuaValue.nil
      if r3 = LuaValue.nil then
        let m := rosie_new_string s ((lua_tolstring r2).getD "")
        { retcode := SUCCESS, cin := some (-1), cout := some 3, cerr := none,
          errOut := m.out, state := m.state,
          events := wrapLock (gcEvs ++ [Event.invoke Entry.engineMatchfile] ++ m.events) }
      else
        { retcode := SUCCESS, cin := some (lua_tointeger r1), cout := some (lua_tointeger r2),
          cerr := some (lua_tointeger r3), errOut := { ptr := none, len := 0 }, state := s,
          events := wrapLock (gcEvs ++ [Event.invoke Entry.engineMatchfile]) }

structure CliOut where
  retcode : Int
  errOut : Option StrOut
  state : EngineState
  events : List Event
  deriving DecidableEq

/-- rosie_exec_cli (librosie.c): under the lock, load the CLI chunk
(luaL_loadfile status loadStatus; on failure the Lua error message is strndup-ed
into err and the status returned), then run it through docall (status
callStatus); on success the integer result of the chunk becomes the return
value. -/
def rosie_exec_cli (s : EngineState) (loadStatus : Int) (loadErrMsg : String)
    (callStatus : Int) (resultVal : Int) : CliOut :=
  if loadStatus ≠ LUA_OK then
    let m := rosie_new_string s loadErrMsg
    { retcode := loadStatus, errOut := some m.out, state := m.state,
      events := wrapLock (Event.invoke Entry.cliLoadfile :: m.events) }
  else if callStatus ≠ LUA_OK then
    { retcode := callStatus, errOut := none, state := s,
      events := wrapLock [Event.invoke Entry.cliLoadfile, Event.invoke Entry.cliCall] }
  else
    { retcode := resultVal, errOut := none, state := s,
      events := wrapLock [Event.invoke Entry.cliLoadfile, Event.invoke Entry.cliCall] }

/-- rosie_finalize (librosie.c): acquire the lock, free the stashed
previous-scripted-result buffer if present, close the Lua state, free the
Engine struct.  The lock is never released. -/
def rosie_finalize (s : EngineState) : EngineState × List Event :=
  match s.prevStash with
  | some b =>
    ({ s with prevStash := none, freedBufs := b :: s.freedBufs },
     Event.acquireLock :: ([Event.freeBuf b] ++ [Event.luaClose, Event.freeEngineStruct]))
  | none =>
    (s, Event.acquireLock :: [Event.luaClose, Event.freeEngineStruct])

/-! Projection and composition lemmas about event traces and state updates. -/

@[simp] theorem collect_rplxTable (s : EngineState) (g : Int) :
    (collect_if_needed s g).rplxTable = s.rplxTable := by
  unfold collect_if_needed; split <;> rfl

@[simp] theorem collect_prevStash (s : EngineState) (g : Int) :
    (collect_if_needed s g).prevStash = s.prevStash := by
  unfold collect_if_needed; split <;> rfl

@[simp] theorem collect_nextBufId (s : EngineState) (g : Int) :
    (collect_if_needed s g).nextBufId = s.nextBufId := by
  unfold collect_if_needed; split <;> rfl

@[simp] theorem collect_freedBufs (s : EngineState) (g : Int) :
    (collect_if_needed s g).freedBufs = s.freedBufs := by
  unfold collect_if_needed; split <;> rfl

@[simp] theorem collect_allocSetLimit (s : EngineState) (g : Int) :
    (collect_if_needed s g).allocSetLimit = s.allocSetLimit := by
  unfold collect_if_needed; split <;> rfl

@[simp] theorem collect_allocActualLimit (s : EngineState) (g : Int) :
    (collect_if_needed s g).allocActualLimit = s.allocActualLimit := by
  unfold collect_if_needed; split <;> rfl

@[simp] theorem collect_nextHandle (s : EngineState) (g : Int) :
    (collect_if_needed s g).nextHandle = s.nextHandle := by
  unfold collect_if_needed; split <;> rfl

@[simp] theorem locksOf_nil : locksOf [] = [] := rfl

@[simp] theorem locksOf_acquire (r : List Event) :
    locksOf (Event.acquireLock :: r) = true :: locksOf r := rfl

@[simp] theorem locksOf_release (r : List Event) :
    locksOf (Event.releaseLock :: r) = false :: locksOf r := rfl

@[simp] theorem locksOf_gc (r : List Event) :
    locksOf (Event.gcCollect :: r) = locksOf r := rfl

@[simp] theorem locksOf_invoke (e : Entry) (r : List Event) :
    locksOf (Event.invoke e :: r) = locksOf r := rfl

@[simp] theorem locksOf_allocBuf (i : Nat) (r : List Event) :
    locksOf (Event.allocBuf i :: r) = locksOf r := rfl

@[simp] theorem locksOf_freeBuf (i : Nat) (r : List Event) :
    locksOf (Event.freeBuf i :: r) = locksOf r := rfl

@[simp] theorem locksOf_luaClose (r : List Event) :
    locksOf (Event.luaClose :: r) = locksOf r := rfl

@[simp] theorem locksOf_freeEngineStruct (r : List Event) :
    locksOf (Event.freeEngineStruct :: r) = locksOf r := rfl

@[simp] theorem locksOf_append (a b : List Event) :
    locksOf (a ++ b) = locksOf a ++ locksOf b := by
  induction a with
  | nil => rfl
  | cons x xs ih => cases x <;> simp [ih]

@[simp] theorem gcCount_nil : gcCount [] = 0 := rfl

@[simp] theorem gcCount_gc (r : List Event) :
    gcCount (Event.gcCollect :: r) = gcCount r + 1 := rfl

@[simp] theorem gcCount_acquire (r : List Event) :
    gcCount (Event.acquireLock :: r) = gcCount r := rfl

@[simp] theorem gcCount_release (r : List Event) :
    gcCount (Event.releaseLock :: r) = gcCount r := rfl

@[simp] theorem gcCount_invoke (e : Entry) (r : List Event) :
    gcCount (Event.invoke e :: r) = gcCount r := rfl

@[simp] theorem gcCount_allocBuf (i : Nat) (r : List Event) :
    gcCount (Event.allocBuf i :: r) = gcCount r := rfl

@[simp] theorem gcCount_freeBuf (i : Nat) (r : List Event) :
    gcCount (Event.freeBuf i :: r) = gcCount r := rfl

@[simp] theorem gcCount_luaClose (r : List Event) :
    gcCount (Event.luaClose :: r) = gcCount r := rfl

@[simp] theorem gcCount_freeEngineStruct (r : List Event) :
    gcCount (Event.freeEngineStruct :: r) = gcCount r := rfl

@[simp] theorem gcCount_append (a b : List Event) :
    gcCount (a ++ b) = gcCount a + gcCount b := by
  induction a with
  | nil => simp
  | cons x xs ih => cases x <;> simp [ih, Nat.add_right_comm]

@[simp] theorem invokesOf_nil : invokesOf [] = [] := rfl

@[simp] theorem invokesOf_invoke (e : Entry) (r : List Event) :
    invokesOf (Event.invoke e :: r) = e :: invokesOf r := rfl

@[simp] theorem invokesOf_acquire (r : List Event) :
    invokesOf (Event.acquireLock :: r) = invokesOf r := rfl

@[simp] theorem invokesOf_release (r : List Event) :
    invokesOf (Event.releaseLock :: r) = invokesOf r := rfl

@[simp] theorem invokesOf_gc (r : List Event) :
    invokesOf (Event.gcCollect :: r) = invokesOf r := rfl

@[simp] theorem invokesOf_allocBuf (i : Nat) (r : List Event) :
    invokesOf (Event.allocBuf i :: r) = invokesOf r := rfl

@[simp] theorem invokesOf_freeBuf (i : Nat) (r : List Event) :
    invokesOf (Event.freeBuf i :: r) = invokesOf r := rfl

@[simp] theorem invokesOf_luaClose (r : List Event) :
    invokesOf (Event.luaClose :: r) = invokesOf r := rfl

@[simp] theorem invokesOf_freeEngineStruct (r : List Event) :
    invokesOf (Event.freeEngineStruct :: r) = invokesOf r := rfl

@[simp] theorem invokesOf_append (a b : List Event) :
    invokesOf (a ++ b) = invokesOf a ++ invokesOf b := by
  induction a with
  | nil => rfl
  | cons x xs ih => cases x <;> simp [ih]

@[simp] theorem locksOf_collectEvents (s : EngineState) :
    locksOf (collectEvents s) = [] := by
  unfold collectEvents; split <;> rfl

@[simp] theorem invokesOf_collectEvents (s : EngineState) :
    invokesOf (collectEvents s) = [] := by
  unfold collectEvents; split <;> rfl

@[simp] theorem locksOf_new_string (s : EngineState) (m : String) :
    locksOf (rosie_new_string s m).events = [] := rfl

@[simp] theorem gcCount_new_string (s : EngineState) (m : String) :
    gcCount (rosie_new_string s m).events = 0 := rfl

@[simp] theorem invokesOf_new_string (s : EngineState) (m : String) :
    invokesOf (rosie_new_string s m).events = [] := rfl

theorem to_json_events_cases (s : EngineState) (v : LuaValue) (enc : PcallResult) :
    (to_json_string s v enc).events = [] ∨
    (to_json_string s v enc).events = [Event.invoke Entry.cjsonEncode] ∨
    ∃ i, (to_json_string s v enc).events =
      [Event.invoke Entry.cjsonEncode, Event.allocBuf i] := by
  unfold to_json_string
  cases v <;> simp
  rename_i isEmpty
  cases isEmpty
  · cases enc
    · simp
    · rename_i rets
      by_cases h : 1 < rets.length <;> simp [h, rosie_new_string]
  · simp

@[simp] theorem locksOf_to_json (s : EngineState) (v : LuaValue) (enc : PcallResult) :
    locksOf (to_json_string s v enc).events = [] := by
  rcases to_json_events_cases s v enc with h | h | ⟨i, h⟩ <;> simp [h]

@[simp] theorem gcCount_to_json (s : EngineState) (v : LuaValue) (enc : PcallResult) :
    gcCount (to_json_string s v enc).events = 0 := by
  rcases to_json_events_cases s v enc with h | h | ⟨i, h⟩ <;> simp [h]

theorem invokesOf_to_json (s : EngineState) (v : LuaValue) (enc : PcallResult) :
    invokesOf (to_json_string s v enc).events = [] ∨
    invokesOf (to_json_string s v enc).events = [Entry.cjsonEncode] := by
  rcases to_json_events_cases s v enc with h | h | ⟨i, h⟩ <;> simp [h]

@[simp] theorem head_wrapLock (mid : List Event) :
    (wrapLock mid).head? = some Event.acquireLock := rfl

@[simp] theorem locksOf_wrapLock (mid : List Event) :
    locksOf (wrapLock mid) = true :: (locksOf mid ++ [false]) := by
  simp [wrapLock]

@[simp] theorem gcCount_wrapLock (mid : List Event) :
    gcCount (wrapLock mid) = gcCount mid := by
  simp [wrapLock]

@[simp] theorem invokesOf_wrapLock (mid : List Event) :
    invokesOf (wrapLock mid) = invokesOf mid := by
  simp [wrapLock]

theorem lockBalanced_wrap {mid : List Event} (h : locksOf mid = []) :
    lockBalanced (wrapLock mid) := by
  refine ⟨rfl, ?_⟩
  simp [h]

/-! Lock-discipline lemmas, one per public operation. -/

theorem alloc_limit_locks (s : EngineState) (nl : Option Int) (u : Bool) (g : Int) :
    lockBalanced (rosie_alloc_limit s nl u g).events := by
  unfold rosie_alloc_limit
  repeat' first | split | dsimp only
  all_goals exact lockBalanced_wrap (by simp)

theorem config_locks (s : EngineState) (rt enc : PcallResult) :
    lockBalanced (rosie_config s rt enc).events := by
  unfold rosie_config
  repeat' first | split | dsimp only
  all_goals exact lockBalanced_wrap (by simp)

theorem libpath_locks (s : EngineState) (p : Option String) (rt : PcallResult) :
    lockBalanced (rosie_libpath s p rt).events := by
  unfold rosie_libpath
  repeat' first | split | dsimp only
  all_goals exact lockBalanced_wrap (by simp)

theorem free_rplx_locks (s : EngineState) (pat : Int) :
    lockBalanced (rosie_free_rplx s pat).2.2 := by
  exact lockBalanced_wrap (by simp)

theorem compile_locks (s : EngineState) (pp ep : Bool) (rt enc : PcallResult) :
    lockBalanced (rosie_compile s pp ep rt enc).events := by
  unfold rosie_compile
  repeat' first | split | dsimp only
  all_goals exact lockBalanced_wrap (by simp)

theorem match_locks (s : EngineState) (pat : Int) (name : String) (rt : PcallResult)
    (g : Int) : lockBalanced (rosie_match s pat name rt g).events := by
  unfold rosie_match
  repeat' first | split | dsimp only
  all_goals exact lockBalanced_wrap (by simp)

theorem trace_locks (s : EngineState) (pat : Int) (style : Option String)
    (rt enc : PcallResult) (g : Int) :
    lockBalanced (rosie_trace s pat style rt enc g).events := by
  unfold rosie_trace
  repeat' first | split | dsimp only
  all_goals exact lockBalanced_wrap (by simp)

theorem load_locks (s : EngineState) (rt enc : PcallResult) :
    lockBalanced (rosie_load s rt enc).events := by
  unfold rosie_load
  repeat' first | split | dsimp only
  all_goals exact lockBalanced_wrap (by simp)

theorem loadfile_locks (s : EngineState) (rt : PcallResult) (st : Bool)
    (enc : PcallResult) : lockBalanced (rosie_loadfile s rt st enc).events := by
  unfold rosie_loadfile
  repeat' first | split | dsimp only
  all_goals exact lockBalanced_wrap (by simp)

theorem import_locks (s : EngineState) (al : Option String) (rt : PcallResult) (st : Bool)
    (enc : PcallResult) : lockBalanced (rosie_import s al rt st enc).events := by
  unfold rosie_import
  repeat' first | split | dsimp only
  all_goals exact lockBalanced_wrap (by simp)

theorem matchfile_locks (s : EngineState) (pat : Int) (encoder : Option String)
    (rt : PcallResult) (g : Int) :
    lockBalanced (rosie_matchfile s pat encoder rt g).events := by
  unfold rosie_matchfile
  repeat' first | split | dsimp only
  all_goals exact lockBalanced_wrap (by simp)

theorem exec_cli_locks (s : EngineState) (ls : Int) (m : String) (cs rv : Int) :
    lockBalanced (rosie_exec_cli s ls m cs rv).events := by
  unfold rosie_exec_cli
  repeat' first | split | dsimp only
  all_goals exact lockBalanced_wrap (by simp)

theorem finalize_locks (s : EngineState) :
    (rosie_finalize s).2.head? = some Event.acquireLock ∧
      locksOf (rosie_finalize s).2 = [true] := by
  unfold rosie_finalize
  rcases s.prevStash with _ | b <;> exact ⟨rfl, by simp⟩

/-! Result-adjustment lemmas for lua_pcall. -/

theorem lua_adjust_length (n : Nat) (l : List LuaValue) : (lua_adjust n l).length = n := by
  simp [lua_adjust]

theorem lua_adjust_idem (n : Nat) (l : List LuaValue) :
    lua_adjust n (lua_adjust n l) = lua_adjust n l := by
  unfold lua_adjust
  exact List.take_left' (lua_adjust_length n l)

theorem lua_adjust_getD_zero (x : LuaValue) (l : List LuaValue) :
    (lua_adjust 5 (x :: l)).getD 0 LuaValue.nil = x := by
  simp [lua_adjust]

theorem lua_adjust_getElem_zero (x : LuaValue) (l : List LuaValue) :
    (lua_adjust 5 (x :: l))[0]? = some x := by
  simp [lua_adjust]

/-! Lemmas about the garbage-collection trigger shared by match, trace and
matchfile. -/

theorem collectEvents_over (s : EngineState) (h1 : s.allocActualLimit ≠ 0)
    (h2 : s.memusgKB > s.allocActualLimit) : collectEvents s = [Event.gcCollect] := by
  unfold collectEvents
  rw [if_pos ⟨h1, h2⟩]

theorem collectEvents_unlimited (s : EngineState) (h : s.allocActualLimit = 0) :
    collectEvents s = [] := by
  unfold collectEvents
  simp [h]

theorem match_take2 (s : EngineState) (pat : Int) (name : String) (rt : PcallResult)
    (g : Int) (h : collectEvents s = [Event.gcCollect]) :
    (rosie_match s pat name rt g).events.take 2 = [Event.acquireLock, Event.gcCollect] := by
  unfold rosie_match
  repeat' first | split | dsimp only
  all_goals simp [wrapLock, h]

theorem match_gc0 (s : EngineState) (pat : Int) (name : String) (rt : PcallResult)
    (g : Int) (h : collectEvents s = []) :
    gcCount (rosie_match s pat name rt g).events = 0 := by
  unfold rosie_match
  repeat' first | split | dsimp only
  all_goals simp [h]

theorem trace_take2 (s : EngineState) (pat : Int) (style : Option String)
    (rt enc : PcallResult) (g : Int) (h : collectEvents s = [Event.gcCollect]) :
    (rosie_trace s pat style rt enc g).events.take 2
      = [Event.acquireLock, Event.gcCollect] := by
  unfold rosie_trace
  repeat' first | split | dsimp only
  all_goals simp [wrapLock, h]

theorem trace_gc0 (s : EngineState) (pat : Int) (style : Option String)
    (rt enc : PcallResult) (g : Int) (h : collectEvents s = []) :
    gcCount (rosie_trace s pat style rt enc g).events = 0 := by
  unfold rosie_trace
  repeat' first | split | dsimp only
  all_goals simp [h]

theorem matchfile_take2 (s : EngineState) (pat : Int) (encoder : Option String)
    (rt : PcallResult) (g : Int) (h : collectEvents s = [Event.gcCollect]) :
    (rosie_matchfile s pat encoder rt g).events.take 2
      = [Event.acquireLock, Event.gcCollect] := by
  unfold rosie_matchfile
  repeat' first | split | dsimp only
  all_goals simp [wrapLock, h]

theorem matchfile_gc0 (s : EngineState) (pat : Int) (encoder : Option String)
    (rt : PcallResult) (g : Int) (h : collectEvents s = []) :
    gcCount (rosie_matchfile s pat encoder rt g).events = 0 := by
  unfold rosie_matchfile
  repeat' first | split | dsimp only
  all_goals simp [h]

/-! Characterization lemmas for rosie_alloc_limit. -/

theorem alloc_limit_set (s : EngineState) (v : Int) (u : Bool) (g : Int)
    (hv : v = 0 ∨ MIN_ALLOC_LIMIT_MB ≤ v) :
    rosie_alloc_limit s (some v) u g =
      { retcode := SUCCESS, newlimitOut := some v,
        usageOut := if u then some g else none,
        state := { s with memusgKB := g, allocSetLimit := v,
                          allocActualLimit := if v = 0 then 0 else g + v },
        events := wrapLock [Event.gcCollect, Event.gcCollect] } := by
  have h1 : ¬(v ≠ -1 ∧ v ≠ 0 ∧ v < MIN_ALLOC_LIMIT_MB) := by
    simp only [MIN_ALLOC_LIMIT_MB] at hv ⊢
    rcases hv with h | h <;> omega
  have h2 : v ≠ -1 := by
    simp only [MIN_ALLOC_LIMIT_MB] at hv
    rcases hv with h | h <;> omega
  unfold rosie_alloc_limit
  dsimp only
  rw [if_neg h1, if_neg h2]

theorem alloc_limit_query (s : EngineState) (u : Bool) (g : Int) :
    rosie_alloc_limit s (some (-1)) u g =
      { retcode := SUCCESS, newlimitOut := some s.allocSetLimit,
        usageOut := if u then some g else none,
        state := { s with memusgKB := g },
        events := wrapLock [Event.gcCollect, Event.gcCollect] } := by
  unfold rosie_alloc_limit
  dsimp only
  rw [if_neg (by simp), if_pos rfl]

theorem alloc_limit_reject (s : EngineState) (v : Int) (u : Bool) (g : Int)
    (h1 : 0 < v) (h2 : v < MIN_ALLOC_LIMIT_MB) :
    rosie_alloc_limit s (some v) u g =
      { retcode := ERR_ENGINE_CALL_FAILED, newlimitOut := some v,
        usageOut := if u then some g else none,
        state := { s with memusgKB := g },
        events := wrapLock [Event.gcCollect, Event.gcCollect] } := by
  unfold rosie_alloc_limit
  dsimp only
  rw [if_pos ⟨by omega, by omega, h2⟩]

/-! Characterization of a scripted-path match returning a string result. -/

theorem match_scripted_string (s : EngineState) (pat : Int) (name : String)
    (txt : String) (tl : List LuaValue) (g : Int)
    (h0 : pat ≠ 0) (hpat : pat ∈ s.rplxTable) (henc : encoder_name_to_code name = 0) :
    (rosie_match s pat name (PcallResult.ok (LuaValue.str txt :: tl)) g).retcode
      = SUCCESS ∧
    (rosie_match s pat name (PcallResult.ok (LuaValue.str txt :: tl)) g).res.dataPtr
      = some (some (DataPtr.ownedPtr s.nextBufId)) ∧
    (rosie_match s pat name (PcallResult.ok (LuaValue.str txt :: tl)) g).state.prevStash
      = some s.nextBufId ∧
    (rosie_match s pat name (PcallResult.ok (LuaValue.str txt :: tl)) g).state.nextBufId
      = s.nextBufId + 1 ∧
    (rosie_match s pat name (PcallResult.ok (LuaValue.str txt :: tl)) g).state.rplxTable
      = s.rplxTable ∧
    (rosie_match s pat name (PcallResult.ok (LuaValue.str txt :: tl)) g).state.freedBufs
      = (match s.prevStash with
         | some b => b :: s.freedBufs
         | none => s.freedBufs) ∧
    (rosie_match s pat name (PcallResult.ok (LuaValue.str txt :: tl)) g).events
      = wrapLock (collectEvents s ++ [Event.invoke Entry.rplxMatch]
          ++ (match s.prevStash with
              | some b => [Event.freeBuf b]
              | none => [])
          ++ [Event.allocBuf s.nextBufId]) := by
  have hc : ¬(pat = 0 ∨ pat ∉ (collect_if_needed s g).rplxTable) := by
    simp [h0, hpat]
  unfold rosie_match
  dsimp only
  rw [if_neg hc]
  rcases hp : s.prevStash with _ | b <;>
    simp [henc, lua_adjust_getElem_zero, hp, lua_touserdata, lua_isboolean, lua_isstring,
          lua_tolstring, wrapLock]

/-- rosie_finalize releases the stashed previous-scripted-result buffer. -/
theorem finalize_frees_stash (s : EngineState) (b : Nat) (h : s.prevStash = some b) :
    b ∈ (rosie_finalize s).1.freedBufs ∧ Event.freeBuf b ∈ (rosie_finalize s).2 := by
  unfold rosie_finalize
  rw [h]
  simp

@[simp] theorem countEntry_append (e : Entry) (a b : List Entry) :
    countEntry e (a ++ b) = countEntry e a + countEntry e b := by
  induction a with
  | nil => simp [countEntry]
  | cons x xs ih => simp [countEntry, ih, Nat.add_assoc]

@[simp] theorem countEntry_strip_to_json (s : EngineState) (v : LuaValue)
    (enc : PcallResult) :
    countEntry Entry.violationStrip (invokesOf (to_json_string s v enc).events) = 0 := by
  rcases to_json_events_cases s v enc with h | h | ⟨i, h⟩ <;> simp [h, countEntry]

/-! Concrete engine states used to instantiate witnesses and counterexamples. -/

def engineStateEx : EngineState :=
  { rplxTable := [3, 4], nextHandle := 5, allocSetLimit := 0, allocActualLimit := 0,
    prevStash := none, nextBufId := 0, freedBufs := [], memusgKB := 50 }

def engineStateOver : EngineState :=
  { engineStateEx with allocActualLimit := 5, memusgKB := 40 }

/-! The claims. -/

/-- C1: a rosie_match call with a pattern handle that is zero, or that is not
present in the compiled-pattern table (for example after rosie_free_rplx),
returns SUCCESS, not an Error; the match data pointer is written NULL with the
reserved ERR_NO_PATTERN sentinel as its length, so the condition is reported
in-band through the Match Result; and rosie_free_rplx indeed removes the handle
from the table. -/
theorem c1_no_pattern_sentinel (s : EngineState) (pat : Int) (name : String)
    (rt : PcallResult) (g : Int)
    (h : pat = 0 ∨ pat ∉ s.rplxTable) :
    (rosie_match s pat name rt g).retcode = SUCCESS ∧
    (rosie_match s pat name rt g).res.dataPtr = some none ∧
    (rosie_match s pat name rt g).res.dataLen = some ERR_NO_PATTERN ∧
    pat ∉ (rosie_free_rplx s pat).2.1.rplxTable := by
  have hc : pat = 0 ∨ pat ∉ (collect_if_needed s g).rplxTable := by simpa using h
  unfold rosie_match
  dsimp only
  rw [if_pos hc]
  refine ⟨rfl, rfl, rfl, ?_⟩
  simp [rosie_free_rplx, List.mem_filter]

theorem c1_witness :
    ((7 : Int) = 0 ∨ (7 : Int) ∉ engineStateEx.rplxTable) ∧
    (rosie_match engineStateEx 7 "json" PcallResult.err 0).retcode = SUCCESS ∧
    (rosie_match engineStateEx 7 "json" PcallResult.err 0).res.dataLen
      = some ERR_NO_PATTERN :=
  ⟨by decide,
   (c1_no_pattern_sentinel engineStateEx 7 "json" PcallResult.err 0 (by decide)).1,
   (c1_no_pattern_sentinel engineStateEx 7 "json" PcallResult.err 0 (by decide)).2.2.1⟩

/-- C2: after a scripted-path match whose result is a string, the owned copy is
stashed in the previous-scripted-result slot and is not freed by that call; a
second scripted-path match with a string result releases exactly that buffer,
and rosie_finalize also releases it.  The caller therefore keeps a full
call-cycle to read the first result. -/
theorem c2_stash_lifetime (s : EngineState) (pat1 pat2 : Int) (name1 name2 : String)
    (txt1 txt2 : String) (tl1 tl2 : List LuaValue) (g1 g2 : Int)
    (hwf : StateWF s)
    (h01 : pat1 ≠ 0) (hp1 : pat1 ∈ s.rplxTable)
    (h02 : pat2 ≠ 0) (hp2 : pat2 ∈ s.rplxTable)
    (he1 : encoder_name_to_code name1 = 0) (he2 : encoder_name_to_code name2 = 0) :
    (rosie_match s pat1 name1 (PcallResult.ok (LuaValue.str txt1 :: tl1)) g1).retcode
      = SUCCESS ∧
    (rosie_match s pat1 name1 (PcallResult.ok (LuaValue.str txt1 :: tl1)) g1).res.dataPtr
      = some (some (DataPtr.ownedPtr s.nextBufId)) ∧
    (rosie_match s pat1 name1 (PcallResult.ok (LuaValue.str txt1 :: tl1)) g1).state.prevStash
      = some s.nextBufId ∧
    s.nextBufId ∉
      (rosie_match s pat1 name1 (PcallResult.ok (LuaValue.str txt1 :: tl1)) g1).state.freedBufs ∧
    s.nextBufId ∈
      (rosie_match
        (rosie_match s pat1 name1 (PcallResult.ok (LuaValue.str txt1 :: tl1)) g1).state
        pat2 name2 (PcallResult.ok (LuaValue.str txt2 :: tl2)) g2).state.freedBufs ∧
    Event.freeBuf s.nextBufId ∈
      (rosie_match
        (rosie_match s pat1 name1 (PcallResult.ok (LuaValue.str txt1 :: tl1)) g1).state
        pat2 name2 (PcallResult.ok (LuaValue.str txt2 :: tl2)) g2).events ∧
    s.nextBufId ∈
      (rosie_finalize
        (rosie_match s pat1 name1 (PcallResult.ok (LuaValue.str txt1 :: tl1)) g1).state).1.freedBufs ∧
    Event.freeBuf s.nextBufId ∈
      (rosie_finalize
        (rosie_match s pat1 name1 (PcallResult.ok (LuaValue.str txt1 :: tl1)) g1).state).2 := by
  obtain ⟨hA, hB, hC, hD, hE, hF, hG⟩ :=
    match_scripted_string s pat1 name1 txt1 tl1 g1 h01 hp1 he1
  obtain ⟨hA2, hB2, hC2, hD2, hE2, hF2, hG2⟩ :=
    match_scripted_string
      (rosie_match s pat1 name1 (PcallResult.ok (LuaValue.str txt1 :: tl1)) g1).state
      pat2 name2 txt2 tl2 g2 h02 (by rw [hE]; exact hp2) he2
  refine ⟨hA, hB, hC, ?_, ?_, ?_,
    (finalize_frees_stash _ _ hC).1, (finalize_frees_stash _ _ hC).2⟩
  · rw [hF]
    rcases hps : s.prevStash with _ | b0
    · intro hmem
      have := hwf.1 _ hmem
      omega
    · intro hmem
      rcases List.mem_cons.mp hmem with hh | hh
      · have hb := hwf.2
        simp only [hps] at hb
        omega
      · have := hwf.1 _ hh
        omega
  · rw [hF2]
    simp only [hC]
    exact List.mem_cons_self _ _
  · rw [hG2]
    simp only [hC, wrapLock]
    simp

theorem c2_witness :
    StateWF engineStateEx ∧ encoder_name_to_code "custom" = 0 ∧
    (rosie_match engineStateEx 3 "custom" (PcallResult.ok [LuaValue.str "ab"]) 0).state.prevStash
      = some engineStateEx.nextBufId ∧
    engineStateEx.nextBufId ∈
      (rosie_match
        (rosie_match engineStateEx 3 "custom" (PcallResult.ok [LuaValue.str "ab"]) 0).state
        4 "custom" (PcallResult.ok [LuaValue.str "cd"]) 0).state.freedBufs := by
  have hwfEx : StateWF engineStateEx := by
    constructor
    · intro b hb
      simp [engineStateEx] at hb
    · simp [engineStateEx]
  have happ := c2_stash_lifetime engineStateEx 3 4 "custom" "custom" "ab" "cd" [] [] 0 0
    hwfEx (by decide) (by decide) (by decide) (by decide) (by decide) (by decide)
  exact ⟨hwfEx, by decide, happ.2.2.1, happ.2.2.2.2.1⟩

/-- C3: evaluating rosie_new at a boot failure.  The call returns a null engine
together with a human-readable diagnostic and exposes no partially-initialized
Engine, as the claim says; but the Engine struct malloc-ed before booting is
left allocated and never freed, and the opened Lua state is never closed, so a
partial allocation is leaked, contradicting the no-leak part of the claim. -/
theorem c3_boot_failure_leaks :
    (rosie_new true true false "missing or corrupt rosie boot loader" true true 0).engineOut
      = none ∧
    (rosie_new true true false "missing or corrupt rosie boot loader" true true 0).messages
      = some "missing or corrupt rosie boot loader" ∧
    (rosie_new true true false "missing or corrupt rosie boot loader" true true 0).engineAllocated
      = true ∧
    (rosie_new true true false "missing or corrupt rosie boot loader" true true 0).engineFreed
      = false ∧
    (rosie_new true true false "missing or corrupt rosie boot loader" true true 0).luaOpened
      = true ∧
    (rosie_new true true false "missing or corrupt rosie boot loader" true true 0).luaClosed
      = false :=
  ⟨rfl, rfl, rfl, rfl, rfl, rfl⟩

/-- C4 counterexample: a successful rosie_load execution that marshals a
non-empty diagnostics table invokes the json encoder without ever invoking the
violation stripper, refuting the claim that load, loadfile and import all run
the diagnostic-stripper pre-pass before marshaling. -/
theorem c4_counterexample :
    countEntry Entry.cjsonEncode
      (invokesOf (rosie_load engineStateEx
        (PcallResult.ok [LuaValue.boolean true, LuaValue.nil, LuaValue.table false])
        (PcallResult.ok [LuaValue.str "m"])).events) = 1 ∧
    countEntry Entry.violationStrip
      (invokesOf (rosie_load engineStateEx
        (PcallResult.ok [LuaValue.boolean true, LuaValue.nil, LuaValue.table false])
        (PcallResult.ok [LuaValue.str "m"])).events) = 0 := by
  decide

/-- C4 amended: rosie_loadfile and rosie_import run the diagnostics through the
violation-stripper pre-pass before marshaling them to json; rosie_load does
not - it marshals its diagnostics without any stripping pre-pass. -/
theorem c4_amended_strip_prepass (s : EngineState) (rt enc : PcallResult) (st : Bool)
    (al : Option String) :
    countEntry Entry.violationStrip (invokesOf (rosie_load s rt enc).events) = 0 ∧
    stripPrecedesEncode (invokesOf (rosie_loadfile s rt st enc).events) = true ∧
    stripPrecedesEncode (invokesOf (rosie_import s al rt st enc).events) = true := by
  refine ⟨?_, ?_, ?_⟩
  · unfold rosie_load
    repeat' first | split | dsimp only
    all_goals simp [countEntry]
  · unfold rosie_loadfile
    repeat' first | split | dsimp only
    all_goals simp [stripPrecedesEncode]
  · unfold rosie_import
    repeat' first | split | dsimp only
    all_goals simp [stripPrecedesEncode]

/-- C5 counterexample: a runtime match call returning only four values, with an
rBuffer in the leading slot after adjustment, is accepted with SUCCESS; no
arity violation is detected or reported as an Error, refuting the claim. -/
theorem c5_counterexample :
    (rosie_match engineStateEx 3 "custom"
      (PcallResult.ok [LuaValue.rbuf 0 7, LuaValue.integer 5, LuaValue.boolean false,
        LuaValue.integer 9]) 0).retcode = SUCCESS ∧
    [LuaValue.rbuf 0 7, LuaValue.integer 5, LuaValue.boolean false,
      LuaValue.integer 9].length = 4 := by
  decide

/-- C5 amended: the runtime call is made through lua_pcall expecting five
results, which adjusts whatever the callee returned to exactly five values by
truncating extras and padding missing ones with nil; rosie_match is therefore
insensitive to the original arity beyond this adjustment, and an Error arises
only from the type of the adjusted leading result value, not from any arity
check. -/
theorem c5_amended_normalization (s : EngineState) (pat : Int) (name : String)
    (rets : List LuaValue) (g : Int) :
    rosie_match s pat name (PcallResult.ok rets) g
      = rosie_match s pat name (PcallResult.ok (lua_adjust 5 rets)) g := by
  unfold rosie_match
  dsimp only
  rw [lua_adjust_idem]

/-- C6 counterexample: a non-empty diagnostics table whose json-encode call
returns a single boolean is not rejected: to_json_string returns LUA_OK, not an
Error, and hands back a present zero-length buffer, refuting the claim that
anything other than exactly one string result yields an Error. -/
theorem c6_counterexample :
    (to_json_string engineStateEx (LuaValue.table false)
      (PcallResult.ok [LuaValue.boolean true])).retcode = LUA_OK ∧
    (to_json_string engineStateEx (LuaValue.table false)
      (PcallResult.ok [LuaValue.boolean true])).json.ptr.isSome = true ∧
    (to_json_string engineStateEx (LuaValue.table false)
      (PcallResult.ok [LuaValue.boolean true])).json.len = 0 := by
  decide

/-- C6 amended: an empty diagnostics collection marshals to a null buffer
(pointer absent, length 0) with no encoder invocation; a non-empty collection
invokes the json encoder, and the marshaler returns an Error when the encoder
call raises or returns more than one value (including the nil-plus-message
error pair); a single string result is copied into a fresh buffer with LUA_OK.
A single non-string result is not rejected. -/
theorem c6_marshal_contract (s : EngineState) (enc : PcallResult) (v w : LuaValue)
    (ws : List LuaValue) (txt : String) :
    to_json_string s (LuaValue.table true) enc
      = { retcode := LUA_OK, json := { ptr := none, len := 0 }, state := s, events := [] } ∧
    (to_json_string s (LuaValue.table false) PcallResult.err).retcode
      = ERR_SYSCALL_FAILED ∧
    (to_json_string s (LuaValue.table false) PcallResult.err).events
      = [Event.invoke Entry.cjsonEncode] ∧
    (to_json_string s (LuaValue.table false) (PcallResult.ok (v :: w :: ws))).retcode
      = ERR_SYSCALL_FAILED ∧
    (to_json_string s (LuaValue.table false) (PcallResult.ok (v :: w :: ws))).events
      = [Event.invoke Entry.cjsonEncode] ∧
    to_json_string s (LuaValue.table false) (PcallResult.ok [LuaValue.str txt])
      = { retcode := LUA_OK,
          json := { ptr := some s.nextBufId, len := Int.ofNat txt.length },
          state := { s with nextBufId := s.nextBufId + 1 },
          events := [Event.invoke Entry.cjsonEncode, Event.allocBuf s.nextBufId] } := by
  have hlen : 1 < (v :: w :: ws).length := by simp
  have hone : ¬(1 < [LuaValue.str txt].length) := by simp
  refine ⟨rfl, rfl, rfl, ?_, ?_, ?_⟩
  · unfold to_json_string
    dsimp only
    rw [if_pos hlen]
    rfl
  · unfold to_json_string
    dsimp only
    rw [if_pos hlen]
    rfl
  · unfold to_json_string
    dsimp only
    rw [if_neg hone]
    rfl

/-- C7: setting the allocation limit to 0 (unlimited) or to any value at least
the minimum threshold succeeds, and an immediately following query returns
exactly the value just set; setting a limit strictly between 0 and the minimum
is rejected with an Error, both limit slots are left unchanged, and a
subsequent query still returns the previously configured value. -/
theorem c7_set_query_roundtrip (s : EngineState) (v w : Int) (u1 u2 : Bool)
    (g1 g2 : Int)
    (hv : v = 0 ∨ MIN_ALLOC_LIMIT_MB ≤ v) (hw1 : 0 < w) (hw2 : w < MIN_ALLOC_LIMIT_MB) :
    ((rosie_alloc_limit s (some v) u1 g1).retcode = SUCCESS ∧
     (rosie_alloc_limit (rosie_alloc_limit s (some v) u1 g1).state
       (some (-1)) u2 g2).newlimitOut = some v) ∧
    ((rosie_alloc_limit s (some w) u1 g1).retcode = ERR_ENGINE_CALL_FAILED ∧
     (rosie_alloc_limit s (some w) u1 g1).state.allocSetLimit = s.allocSetLimit ∧
     (rosie_alloc_limit s (some w) u1 g1).state.allocActualLimit = s.allocActualLimit ∧
     (rosie_alloc_limit (rosie_alloc_limit s (some w) u1 g1).state
       (some (-1)) u2 g2).newlimitOut = some s.allocSetLimit) := by
  rw [alloc_limit_set s v u1 g1 hv, alloc_limit_reject s w u1 g1 hw1 hw2,
      alloc_limit_query, alloc_limit_query]
  simp

theorem c7_witness :
    ((12 : Int) = 0 ∨ MIN_ALLOC_LIMIT_MB ≤ 12) ∧ (0 : Int) < 5 ∧
    (5 : Int) < MIN_ALLOC_LIMIT_MB ∧
    (rosie_alloc_limit (rosie_alloc_limit engineStateEx (some 12) true 7).state
      (some (-1)) true 8).newlimitOut = some 12 ∧
    (rosie_alloc_limit engineStateEx (some 5) true 7).retcode = ERR_ENGINE_CALL_FAILED :=
  ⟨by decide, by decide, by decide,
   (c7_set_query_roundtrip engineStateEx 12 5 true true 7 8 (by decide) (by decide)
     (by decide)).1.2,
   (c7_set_query_roundtrip engineStateEx 12 5 true true 7 8 (by decide) (by decide)
     (by decide)).2.1⟩

/-- C8: rosie_match, rosie_trace and rosie_matchfile all run the allocation
check first: when the stored actual ceiling is nonzero and current usage
exceeds it, the full collection happens synchronously inline, immediately after
the lock acquisition and before anything else; when the ceiling is the
unlimited sentinel or unset (zero), no collection is triggered at all. -/
theorem c8_collect_before_work (s t : EngineState)
    (h1 : s.allocActualLimit ≠ 0) (h2 : s.memusgKB > s.allocActualLimit)
    (h3 : t.allocActualLimit = 0)
    (pat : Int) (name : String) (rt : PcallResult) (g : Int)
    (style : Option String) (rt2 enc2 : PcallResult) (g2 : Int)
    (pat3 : Int) (enc3 : Option String) (rt3 : PcallResult) (g3 : Int) :
    ((rosie_match s pat name rt g).events.take 2
        = [Event.acquireLock, Event.gcCollect] ∧
     (rosie_trace s pat style rt2 enc2 g2).events.take 2
        = [Event.acquireLock, Event.gcCollect] ∧
     (rosie_matchfile s pat3 enc3 rt3 g3).events.take 2
        = [Event.acquireLock, Event.gcCollect]) ∧
    (gcCount (rosie_match t pat name rt g).events = 0 ∧
     gcCount (rosie_trace t pat style rt2 enc2 g2).events = 0 ∧
     gcCount (rosie_matchfile t pat3 enc3 rt3 g3).events = 0) := by
  have hs := collectEvents_over s h1 h2
  have ht := collectEvents_unlimited t h3
  exact ⟨⟨match_take2 _ _ _ _ _ hs, trace_take2 _ _ _ _ _ _ hs,
          matchfile_take2 _ _ _ _ _ hs⟩,
         match_gc0 _ _ _ _ _ ht, trace_gc0 _ _ _ _ _ _ ht, matchfile_gc0 _ _ _ _ _ ht⟩

theorem c8_witness :
    engineStateOver.allocActualLimit ≠ 0 ∧
    engineStateOver.memusgKB > engineStateOver.allocActualLimit ∧
    engineStateEx.allocActualLimit = 0 ∧
    (rosie_match engineStateOver 3 "json" PcallResult.err 1).events.take 2
      = [Event.acquireLock, Event.gcCollect] ∧
    gcCount (rosie_match engineStateEx 3 "json" PcallResult.err 1).events = 0 := by
  refine ⟨by decide, by decide, by decide, ?_, ?_⟩
  · exact (c8_collect_before_work engineStateOver engineStateEx (by decide) (by decide)
      (by decide) 3 "json" PcallResult.err 1 none PcallResult.err PcallResult.err 1
      3 none PcallResult.err 1).1.1
  · exact (c8_collect_before_work engineStateOver engineStateEx (by decide) (by decide)
      (by decide) 3 "json" PcallResult.err 1 none PcallResult.err PcallResult.err 1
      3 none PcallResult.err 1).2.1

/-- C9: every public operation on an engine acquires the engine mutex as its
first event and its lock trace is exactly one acquire followed by one release,
on every execution path, success or error; rosie_finalize acquires the mutex
and never releases it.  rosie_new takes no engine and so touches no engine
mutex. -/
theorem c9_lock_discipline :
    (∀ s nl u g, lockBalanced (rosie_alloc_limit s nl u g).events) ∧
    (∀ s rt enc, lockBalanced (rosie_config s rt enc).events) ∧
    (∀ s p rt, lockBalanced (rosie_libpath s p rt).events) ∧
    (∀ s pat, lockBalanced (rosie_free_rplx s pat).2.2) ∧
    (∀ s pp ep rt enc, lockBalanced (rosie_compile s pp ep rt enc).events) ∧
    (∀ s pat name rt g, lockBalanced (rosie_match s pat name rt g).events) ∧
    (∀ s pat style rt enc g, lockBalanced (rosie_trace s pat style rt enc g).events) ∧
    (∀ s rt enc, lockBalanced (rosie_load s rt enc).events) ∧
    (∀ s rt st enc, lockBalanced (rosie_loadfile s rt st enc).events) ∧
    (∀ s al rt st enc, lockBalanced (rosie_import s al rt st enc).events) ∧
    (∀ s pat encoder rt g, lockBalanced (rosie_matchfile s pat encoder rt g).events) ∧
    (∀ s ls m cs rv, lockBalanced (rosie_exec_cli s ls m cs rv).events) ∧
    (∀ s, (rosie_finalize s).2.head? = some Event.acquireLock ∧
          locksOf (rosie_finalize s).2 = [true]) :=
  ⟨alloc_limit_locks, config_locks, libpath_locks, free_rplx_locks, compile_locks,
   match_locks, trace_locks, load_locks, loadfile_locks, import_locks, matchfile_locks,
   exec_cli_locks, finalize_locks⟩

/-- C10: a rosie_trace call with a live pattern handle but a null trace_style
returns SUCCESS, not an Error, with the trace pointer written NULL and the
ERR_NO_ENCODER sentinel as its length, reporting the missing style in-band;
the matched flag is left unwritten. -/
theorem c10_null_trace_style (s : EngineState) (pat : Int) (rt enc : PcallResult)
    (g : Int) (h0 : pat ≠ 0) (hpat : pat ∈ s.rplxTable) :
    (rosie_trace s pat none rt enc g).retcode = SUCCESS ∧
    (rosie_trace s pat none rt enc g).trc = some { ptr := none, len := ERR_NO_ENCODER } ∧
    (rosie_trace s pat none rt enc g).matched = none := by
  have hc : ¬(pat = 0 ∨ pat ∉ (collect_if_needed s g).rplxTable) := by
    simp [h0, hpat]
  unfold rosie_trace
  dsimp only
  rw [if_neg hc, if_pos rfl]
  exact ⟨rfl, rfl, rfl⟩

theorem c10_witness :
    (3 : Int) ≠ 0 ∧ (3 : Int) ∈ engineStateEx.rplxTable ∧
    (rosie_trace engineStateEx 3 none PcallResult.err PcallResult.err 0).retcode
      = SUCCESS ∧
    (rosie_trace engineStateEx 3 none PcallResult.err PcallResult.err 0).trc
      = some { ptr := none, len := ERR_NO_ENCODER } :=
  ⟨by decide, by decide,
   (c10_null_trace_style engineStateEx 3 PcallResult.err PcallResult.err 0 (by decide)
     (by decide)).1,
   (c10_null_trace_style engineStateEx 3 PcallResult.err PcallResult.err 0 (by decide)
     (by decide)).2.1⟩

end Rosie
